import Mathlib

/-!
Verification development for the jquery-google-analytics plugin
(src/jquery.google-analytics.js). The JavaScript is shallowly embedded:
the small subset of JavaScript values the plugin manipulates is the type
JSVal, loose equality (the == operator) and string conversion are modelled
explicitly, the module-level pageTracker variable becomes explicit state,
and DOM side effects (tracker calls, console logging, event binding) are
recorded in output lists.
-/

namespace JGA

/-- The subset of JavaScript values the plugin manipulates. -/
inductive JSVal where
  | undef
  | null
  | bool (b : Bool)
  | num (n : Int)
  | str (s : String)
deriving DecidableEq

/-- JavaScript ToNumber on the value subset; none stands for NaN. -/
def toNumber : JSVal → Option Int
  | .undef => none
  | .null => some 0
  | .bool b => some (if b then 1 else 0)
  | .num n => some n
  | .str s => if s.trim = "" then some 0 else s.trim.toInt?

/-- JavaScript loose equality (the == operator) on the value subset. -/
def looseEq : JSVal → JSVal → Bool
  | .undef, .undef => true
  | .undef, .null => true
  | .null, .undef => true
  | .null, .null => true
  | .undef, _ => false
  | .null, _ => false
  | _, .undef => false
  | _, .null => false
  | .str s, .str t => s == t
  | a, b =>
    match toNumber a, toNumber b with
    | some x, some y => x == y
    | _, _ => false

/-- JavaScript loose inequality (the != operator). -/
def looseNeq (a b : JSVal) : Bool := !(looseEq a b)

/-- JavaScript ToString on the value subset (used by the + operator when
concatenating onto a string). -/
def jsToString : JSVal → String
  | .undef => "undefined"
  | .null => "null"
  | .bool b => if b then "true" else "false"
  | .num n => toString n
  | .str s => s

/-- The pieces of document.location the plugin reads. -/
structure Location where
  protocol : String
  pathname : String
  search : String
  hostname : String
deriving DecidableEq

/-- A call made on the external tracker handle (pageTracker). -/
inductive TrackAction where
  | pageview (path : Option String)
  | event (category action label value : JSVal)
deriving DecidableEq

/-- A raised JavaScript error: a ReferenceError from evaluating an
undeclared global, or an explicit throw of a string. -/
inductive JSError where
  | refError (msg : String)
  | thrown (msg : String)
deriving DecidableEq

/-- The state touched by the page tracker initializer: the module-level
pageTracker variable (modelled as the account id the handle was created
for), the calls made on the tracker handle, and the messages passed to the
debug helper. -/
structure GAState where
  pageTracker : Option String
  actions : List TrackAction
  debugCalls : List String
deriving DecidableEq

/-- Result of typeof _gat: the string "undefined" when ga.js never loaded
(the global is undeclared), otherwise "object". -/
def typeof_gat (gat : Bool) : String := if gat then "object" else "undefined"

/-- Embeds init_analytics (src lines 78-95). The source guard is
`typeof _gat != undefined`, comparing the string result of typeof against
the undefined value, which is loosely unequal for every string, so the
guard is always taken and the explicit `throw` on line 93 is dead code.
When _gat is absent (gat = false), evaluating `_gat._getTracker` on line
82 raises a ReferenceError before pageTracker is assigned; the error
carries the state at the moment of the raise. -/
def init_analytics (gat : Bool) (account_id : String) (status_code : JSVal)
    (loc : Location) (referrer : String) (s : GAState) :
    Except (JSError × GAState) GAState :=
  if looseNeq (JSVal.str (typeof_gat gat)) JSVal.undef then
    let s1 : GAState := { s with debugCalls := s.debugCalls ++ ["Google Analytics loaded"] }
    if gat then
      let s2 : GAState := { s1 with pageTracker := some account_id }
      if looseEq status_code JSVal.null || looseEq status_code (JSVal.num 200) then
        Except.ok { s2 with actions := s2.actions ++ [TrackAction.pageview none] }
      else
        let s3 : GAState :=
          { s2 with debugCalls := s2.debugCalls ++ ["Tracking error " ++ jsToString status_code] }
        Except.ok { s3 with actions := s3.actions ++
          [TrackAction.pageview (some ("/" ++ jsToString status_code ++ ".html?page=" ++
            loc.pathname ++ loc.search ++ "&from=" ++ referrer))] }
    else
      Except.error (JSError.refError "_gat is not defined", s1)
  else
    Except.error (JSError.thrown "_gat is undefined", s)

/-- The recognized $.trackPage options; none marks an absent key
($.extend also skips keys whose value is undefined). -/
structure TrackPageOptions where
  onload : Option JSVal := none
  status_code : Option JSVal := none

/-- The merged $.trackPage settings. -/
structure TrackPageSettings where
  onload : JSVal
  status_code : JSVal
deriving DecidableEq

/-- Embeds `$.extend({}, {onload: true, status_code: 200}, options)`
(src line 75). -/
def trackPage_settings (o : TrackPageOptions) : TrackPageSettings :=
  { onload := o.onload.getD (JSVal.bool true),
    status_code := o.status_code.getD (JSVal.num 200) }

/-- Whether the ga.js script load is deferred to window load or run
immediately. -/
inductive LoadPlan where
  | onWindowLoad
  | immediate
deriving DecidableEq

/-- Embeds the dispatch on src lines 104-109:
`if (settings.onload == true || settings.onload == null)` defers
load_script to `$(window).load`, otherwise load_script runs at once. -/
def trackPage_loadPlan (o : TrackPageOptions) : LoadPlan :=
  if looseEq (trackPage_settings o).onload (JSVal.bool true) ||
      looseEq (trackPage_settings o).onload JSVal.null then
    LoadPlan.onWindowLoad
  else
    LoadPlan.immediate

/-- Result of typeof pageTracker: "undefined" until the module-level
variable is assigned by init_analytics, "object" afterwards. -/
def typeof_pageTracker : Option String → String
  | none => "undefined"
  | some _ => "object"

/-- Embeds $.trackEvent (src lines 121-128). The guard
`typeof pageTracker == 'undefined'` holds exactly when the module-level
variable was never assigned, that is, exactly when it is none. Returns
the calls made on the tracker handle and the messages passed to the debug
helper; the function is total, so no exception can escape. -/
def trackEvent (pageTracker : Option String) (category action label value : JSVal) :
    List TrackAction × List String :=
  match pageTracker with
  | none => ([], ["FATAL ERROR: pageTracker is not defined"])
  | some _ => ([TrackAction.event category action label value], [])

/-- The pieces of a DOM anchor element the plugin reads: element[0].hostname
(the host of the link target) and the href attribute. -/
structure Element where
  hostname : String
  href : String
deriving DecidableEq

/-- A configurable setting value: a plain value, or a callback taking the
element. Each callback carries a numeric id used only to count its
invocations (the id plays no role in the computed values). -/
inductive TrackSetting where
  | lit (v : JSVal)
  | cb (fid : Nat) (f : Element → JSVal)

/-- Embeds evaluate (src lines 190-195): a function is called with the
element, anything else is returned as is. Also reports the ids of the
callbacks invoked, so invocation counts can be stated. -/
def evaluate (element : Element) : TrackSetting → JSVal × List Nat
  | .cb fid f => (f element, [fid])
  | .lit v => (v, [])

/-- The merged $.fn.track settings record (the shape of
$.fn.track.defaults, src lines 210-218). -/
structure TrackSettingsR where
  category : TrackSetting
  action : TrackSetting
  label : TrackSetting
  value : TrackSetting
  event_name : TrackSetting
  skip_internal : Bool
  debug : Bool

/-- The $.fn.track.defaults object (src lines 210-218). The category and
label defaults are callbacks; the category callback closes over the global
location, so the defaults record is parameterized by it. The callbacks
carry ids 0 and 1. -/
def track_defaults (loc : Location) : TrackSettingsR :=
  { category := TrackSetting.cb 0 (fun element =>
      JSVal.str (if element.hostname == loc.hostname then "internal" else "external")),
    action := TrackSetting.lit (JSVal.str "click"),
    label := TrackSetting.cb 1 (fun element => JSVal.str element.href),
    value := TrackSetting.lit JSVal.null,
    skip_internal := true,
    event_name := TrackSetting.lit (JSVal.str "click"),
    debug := false }

/-- Per-invocation $.fn.track options; none marks an absent key. -/
structure TrackOptions where
  category : Option TrackSetting := none
  action : Option TrackSetting := none
  label : Option TrackSetting := none
  value : Option TrackSetting := none
  event_name : Option TrackSetting := none
  skip_internal : Option Bool := none
  debug : Option Bool := none

/-- Embeds `$.extend({}, $.fn.track.defaults, options)` (src line 153). -/
def extendTrack (dfl : TrackSettingsR) (o : TrackOptions) : TrackSettingsR :=
  { category := o.category.getD dfl.category,
    action := o.action.getD dfl.action,
    label := o.label.getD dfl.label,
    value := o.value.getD dfl.value,
    event_name := o.event_name.getD dfl.event_name,
    skip_internal := o.skip_internal.getD dfl.skip_internal,
    debug := o.debug.getD dfl.debug }

/-- The five settings values resolved at attach time (src lines 156-160). -/
structure Resolved where
  category : JSVal
  action : JSVal
  label : JSVal
  value : JSVal
  event_name : JSVal
deriving DecidableEq

/-- Evaluates the five configurable settings against the element, in source
order, returning the resolved values and the callback ids invoked. -/
def resolveSettings (el : Element) (s : TrackSettingsR) : Resolved × List Nat :=
  let c := evaluate el s.category
  let a := evaluate el s.action
  let l := evaluate el s.label
  let v := evaluate el s.value
  let en := evaluate el s.event_name
  (⟨c.1, a.1, l.1, v.1, en.1⟩, c.2 ++ a.2 ++ l.2 ++ v.2 ++ en.2)

/-- The message string built on src line 162. -/
def trackMessage (r : Resolved) : String :=
  "category:\x27" ++ jsToString r.category ++ "\x27 action:\x27" ++ jsToString r.action ++
    "\x27 label:\x27" ++ jsToString r.label ++ "\x27 value:\x27" ++ jsToString r.value ++ "\x27"

/-- A listener bound by `$element.bind(event_name + '.track', ...)`
(src lines 166-179): the event name, the `.track` namespace jQuery parses
off the string, and the values the closure captured at attach time. The
element itself is read again at fire time and so is not stored here. -/
structure Listener where
  eventName : String
  namesp : String
  skip_internal : Bool
  category : JSVal
  action : JSVal
  label : JSVal
  value : JSVal
  message : String
deriving DecidableEq

/-- The listener the bind call on src line 166 attaches, given the merged
settings and the values resolved at attach time. -/
def mkListener (r : Resolved) (s : TrackSettingsR) : Listener :=
  { eventName := jsToString r.event_name,
    namesp := "track",
    skip_internal := s.skip_internal,
    category := r.category,
    action := r.action,
    label := r.label,
    value := r.value,
    message := trackMessage r }

/-- A DOM element together with its mutable jQuery-visible state: its CSS
class list and the listeners bound to it. -/
structure ElemState where
  elem : Element
  classes : List String
  listeners : List Listener
deriving DecidableEq

/-- The per-element body of the each callback in $.fn.track
(src lines 141-180), for an element that does not yet carry the tracked
class: add the class, merge the settings, resolve the five configurable
fields, pass the Tracking message to debug, and bind the listener.
Returns the updated element, the messages passed to debug, and the
callback ids invoked. -/
def trackOne (dfl : TrackSettingsR) (opts : TrackOptions) (e : ElemState) :
    ElemState × List String × List Nat :=
  let e1 : ElemState := { e with classes := e.classes ++ ["tracked"] }
  let s := extendTrack dfl opts
  let rt := resolveSettings e.elem s
  let e2 : ElemState := { e1 with listeners := e1.listeners ++ [mkListener rt.1 s] }
  (e2, ["Tracking " ++ jsToString rt.1.event_name ++ " " ++ trackMessage rt.1], rt.2)

/-- Embeds $.fn.track (src lines 139-181): `$(this).each(...)` over the
collection. The each callback returns false for an element that already
carries the tracked class, and jQuery each treats a false return as a
break, so iteration stops there and every later element is left untouched.
Returns the updated collection (the collection itself is the return value,
for chaining), the messages passed to debug, and the callback ids
invoked. -/
def track (dfl : TrackSettingsR) (opts : TrackOptions) :
    List ElemState → List ElemState × List String × List Nat
  | [] => ([], [], [])
  | e :: rest =>
    if "tracked" ∈ e.classes then
      (e :: rest, [], [])
    else
      let p := trackOne dfl opts e
      let q := track dfl opts rest
      (p.1 :: q.1, p.2.1 ++ q.2.1, p.2.2 ++ q.2.2)

/-- A sequence of $.fn.track invocations on the same collection, each with
its own options object. -/
def trackSeq (dfl : TrackSettingsR) : List TrackOptions → List ElemState → List ElemState
  | [], es => es
  | o :: os, es => trackSeq dfl os (track dfl o es).1

/-- The observable outcome of one firing of a bound listener: the argument
tuples of the $.trackEvent invocations it makes, the resulting tracker
handle calls, the messages passed to debug, and the returned continuation
value. -/
structure FireResult where
  calls : List (JSVal × JSVal × JSVal × JSVal)
  actions : List TrackAction
  dbg : List String
  ret : Bool
deriving DecidableEq

/-- Embeds the listener body (src lines 166-179). skip is
`settings.skip_internal && $element[0].hostname == location.hostname`; the
hostnames are read at fire time and passed in here. When not skipped the
listener calls $.trackEvent once with the captured tuple and passes a
Tracked message to debug, otherwise it passes a Skipped message; it always
returns true. -/
def fireListener (pageTracker : Option String) (elemHostname locHostname : String)
    (l : Listener) : FireResult :=
  let skip := l.skip_internal && (elemHostname == locHostname)
  if !skip then
    let te := trackEvent pageTracker l.category l.action l.label l.value
    { calls := [(l.category, l.action, l.label, l.value)],
      actions := te.1,
      dbg := te.2 ++ ["Tracked " ++ l.message],
      ret := true }
  else
    { calls := [], actions := [], dbg := ["Skipped " ++ l.message], ret := true }

/-- Attach tracking to one fresh element and then fire the listener bound
by that attachment n times. The first component is the list of callback
ids invoked over the whole run: firing contributes none, because the
listener closure only reads the values resolved at attach time. -/
def attachAndFire (dfl : TrackSettingsR) (opts : TrackOptions) (e : ElemState)
    (pageTracker : Option String) (locHostname : String) (n : Nat) :
    List Nat × List FireResult :=
  let p := trackOne dfl opts e
  match p.1.listeners.getLast? with
  | some l =>
    (p.2.2, (List.range n).map fun _ => fireListener pageTracker p.1.elem.hostname locHostname l)
  | none => (p.2.2, [])

/-- Embeds the debug helper (src lines 201-205): messages reach the
console only when a console with a debug method exists and the debug flag
of the global $.fn.track.defaults object is set. The per-invocation
settings object is never consulted. -/
def debugWrites (consoleAvail : Bool) (defaultsDebug : Bool) (msgs : List String) :
    List String :=
  if consoleAvail && defaultsDebug then msgs else []

/-- The callback ids a setting contributes when evaluated once. -/
def settingFids : TrackSetting → List Nat
  | .lit _ => []
  | .cb fid _ => [fid]

/-- The callback ids one attach-time resolution of the five configurable
settings invokes, in source order. -/
def settingsFidTrace (s : TrackSettingsR) : List Nat :=
  settingFids s.category ++ settingFids s.action ++ settingFids s.label ++
    settingFids s.value ++ settingFids s.event_name

/-- The listener-count invariant of the tracked mark: at most one tracking
listener, and none at all while the element does not carry the mark. -/
def Inv (e : ElemState) : Prop :=
  e.listeners.length ≤ 1 ∧ ("tracked" ∉ e.classes → e.listeners = [])

instance (e : ElemState) : Decidable (Inv e) := by
  unfold Inv; infer_instance

/-- The listener attached to an element by one pass of the each body. -/
def attachedListener (dfl : TrackSettingsR) (opts : TrackOptions) (e : ElemState) : Listener :=
  mkListener (resolveSettings e.elem (extendTrack dfl opts)).1 (extendTrack dfl opts)

/-- An empty options object, `$('a').track()` with no argument. -/
def opts0 : TrackOptions := {}

/-- A sample page location. -/
def locW : Location :=
  { protocol := "http:", pathname := "/foo", search := "?x=1", hostname := "page.example" }

/-- A sample initial analytics state: pageTracker unassigned, nothing
recorded. -/
def gaState0 : GAState := { pageTracker := none, actions := [], debugCalls := [] }

/-- A sample element that already carries the tracked class. -/
def styledEl : ElemState :=
  { elem := { hostname := "a.example", href := "http://a.example/x" },
    classes := ["tracked"], listeners := [] }

/-- A sample fresh element: no classes, no listeners. -/
def freshElB : ElemState :=
  { elem := { hostname := "b.example", href := "http://b.example/y" },
    classes := [], listeners := [] }

theorem trackOne_fst_listeners (dfl : TrackSettingsR) (opts : TrackOptions) (e : ElemState) :
    (trackOne dfl opts e).1.listeners = e.listeners ++ [attachedListener dfl opts e] := rfl

theorem trackOne_fst_classes (dfl : TrackSettingsR) (opts : TrackOptions) (e : ElemState) :
    (trackOne dfl opts e).1.classes = e.classes ++ ["tracked"] := rfl

theorem trackOne_mem_tracked (dfl : TrackSettingsR) (opts : TrackOptions) (e : ElemState) :
    "tracked" ∈ (trackOne dfl opts e).1.classes := by
  rw [trackOne_fst_classes]
  exact List.mem_append_right _ (List.mem_singleton.mpr rfl)

/-- One pass of $.fn.track relates the collection to its output pointwise:
each element is either left untouched (at or after the break point) or was
untracked and went through the each body. -/
theorem track_step (dfl : TrackSettingsR) (opts : TrackOptions) :
    ∀ es : List ElemState,
      List.Forall₂ (fun e e2 => e2 = e ∨ ("tracked" ∉ e.classes ∧ e2 = (trackOne dfl opts e).1))
        es (track dfl opts es).1
  | [] => List.Forall₂.nil
  | e :: rest => by
    by_cases h : "tracked" ∈ e.classes
    · simp only [track, if_pos h]
      exact List.Forall₂.cons (Or.inl rfl) (List.forall₂_same.mpr fun x _ => Or.inl rfl)
    · simp only [track, if_neg h]
      exact List.Forall₂.cons (Or.inr ⟨h, rfl⟩) (track_step dfl opts rest)

/-- The per-element facts preserved by any number of track passes: a marked
element is never modified, the listener-count invariant is preserved, and
the mark is never removed. -/
def Step (e e2 : ElemState) : Prop :=
  ("tracked" ∈ e.classes → e2 = e) ∧ (Inv e → Inv e2) ∧
    ("tracked" ∈ e.classes → "tracked" ∈ e2.classes)

theorem Step_rfl (e : ElemState) : Step e e := ⟨fun _ => rfl, id, id⟩

theorem Step_trans {a b c : ElemState} (h1 : Step a b) (h2 : Step b c) : Step a c := by
  refine ⟨?_, fun hI => h2.2.1 (h1.2.1 hI), fun ht => h2.2.2 (h1.2.2 ht)⟩
  intro ht
  rw [h2.1 (h1.2.2 ht), h1.1 ht]

theorem step_imp_Step (dfl : TrackSettingsR) (opts : TrackOptions) {e e2 : ElemState}
    (h : e2 = e ∨ ("tracked" ∉ e.classes ∧ e2 = (trackOne dfl opts e).1)) : Step e e2 := by
  rcases h with rfl | ⟨hn, rfl⟩
  · exact Step_rfl _
  · refine ⟨fun ht => absurd ht hn, ?_, fun ht => absurd ht hn⟩
    intro hI
    have hl : e.listeners = [] := hI.2 hn
    refine ⟨?_, fun hn2 => absurd (trackOne_mem_tracked dfl opts e) hn2⟩
    rw [trackOne_fst_listeners, hl]
    simp

theorem track_Step (dfl : TrackSettingsR) (opts : TrackOptions) (es : List ElemState) :
    List.Forall₂ Step es (track dfl opts es).1 :=
  List.Forall₂.imp (fun _ _ h => step_imp_Step dfl opts h) (track_step dfl opts es)

/-- Pointwise composition of Forall₂ along a transitive relation. -/
theorem forall2_comp {α : Type} (P : α → α → Prop) (hP : ∀ a b c, P a b → P b c → P a c) :
    ∀ {l1 l2 l3 : List α}, List.Forall₂ P l1 l2 → List.Forall₂ P l2 l3 → List.Forall₂ P l1 l3 := by
  intro l1 l2 l3 h1
  induction h1 generalizing l3 with
  | nil => intro h2; cases h2; exact List.Forall₂.nil
  | cons hab _ ih =>
    intro h2
    cases h2 with
    | cons hbc h2t => exact List.Forall₂.cons (hP _ _ _ hab hbc) (ih h2t)

theorem trackSeq_Step (dfl : TrackSettingsR) :
    ∀ (optss : List TrackOptions) (es : List ElemState),
      List.Forall₂ Step es (trackSeq dfl optss es)
  | [], es => List.forall₂_same.mpr fun e _ => Step_rfl e
  | o :: os, es =>
    forall2_comp Step (fun _ _ _ h1 h2 => Step_trans h1 h2) (track_Step dfl o es)
      (trackSeq_Step dfl os (track dfl o es).1)

theorem forall2_Step_inv : ∀ {l1 l2 : List ElemState}, List.Forall₂ Step l1 l2 →
    (∀ e ∈ l1, Inv e) →
    List.Forall₂ (fun e e2 => ("tracked" ∈ e.classes → e2 = e) ∧ e2.listeners.length ≤ 1) l1 l2 := by
  intro l1 l2 hs
  induction hs with
  | nil => intro _; exact List.Forall₂.nil
  | cons hab _ ih =>
    intro h
    exact List.Forall₂.cons ⟨hab.1, (hab.2.1 (h _ (List.mem_cons_self _ _))).1⟩
      (ih fun e he => h e (List.mem_cons_of_mem _ he))

theorem fireListener_skip (pt : Option String) (eh lh : String) (l : Listener)
    (h : (l.skip_internal && (eh == lh)) = true) :
    fireListener pt eh lh l =
      { calls := [], actions := [], dbg := ["Skipped " ++ l.message], ret := true } := by
  simp [fireListener, h]

theorem fireListener_go (pt : Option String) (eh lh : String) (l : Listener)
    (h : (l.skip_internal && (eh == lh)) = false) :
    fireListener pt eh lh l =
      { calls := [(l.category, l.action, l.label, l.value)],
        actions := (trackEvent pt l.category l.action l.label l.value).1,
        dbg := (trackEvent pt l.category l.action l.label l.value).2 ++ ["Tracked " ++ l.message],
        ret := true } := by
  simp [fireListener, h]

theorem evaluate_trace (el : Element) (s : TrackSetting) : (evaluate el s).2 = settingFids s := by
  cases s <;> rfl

theorem trackOne_debug_irrel (dfl : TrackSettingsR) (opts : TrackOptions) (d : Option Bool)
    (e : ElemState) : trackOne dfl { opts with debug := d } e = trackOne dfl opts e := rfl

theorem track_debug_irrel (dfl : TrackSettingsR) (opts : TrackOptions) (d : Option Bool) :
    ∀ es : List ElemState, track dfl { opts with debug := d } es = track dfl opts es
  | [] => rfl
  | e :: rest => by
    by_cases h : "tracked" ∈ e.classes
    · simp only [track, if_pos h]
    · simp only [track, if_neg h, track_debug_irrel dfl opts d rest, trackOne_debug_irrel]

/-- Claim C1: attachment is idempotent. Starting from a collection whose
elements satisfy the listener-count invariant (fresh elements do), any
sequence of $.fn.track invocations, with arbitrary options each time,
leaves every already-marked element exactly unchanged (so no further
listener is ever attached to it), and keeps every element at no more than
one tracking listener. -/
theorem track_marked_attach_idempotent (dfl : TrackSettingsR) (optss : List TrackOptions)
    (es : List ElemState) (h : ∀ e ∈ es, Inv e) :
    List.Forall₂ (fun e e2 => ("tracked" ∈ e.classes → e2 = e) ∧ e2.listeners.length ≤ 1)
      es (trackSeq dfl optss es) :=
  forall2_Step_inv (trackSeq_Step dfl optss es) h

/-- Witness for C1 at a concrete input: one fresh element, tracked twice
with empty options. -/
theorem track_marked_attach_idempotent_witness :
    (∀ e ∈ [freshElB], Inv e) ∧
    List.Forall₂ (fun e e2 => ("tracked" ∈ e.classes → e2 = e) ∧ e2.listeners.length ≤ 1)
      [freshElB] (trackSeq (track_defaults locW) [opts0, opts0] [freshElB]) :=
  ⟨by decide, track_marked_attach_idempotent (track_defaults locW) [opts0, opts0] [freshElB]
    (by decide)⟩

/-- Claim C2 (code bug): the each callback returns false for an element
that already carries the tracked class, and jQuery each treats false as a
break, so a marked element stops the whole iteration. Concretely: a fresh
element alone receives one listener, but behind a marked element it
receives none and no debug message is produced for it. -/
theorem track_break_skips_rest :
    (track (track_defaults locW) opts0 [styledEl, freshElB]).1 = [styledEl, freshElB] ∧
    ((track (track_defaults locW) opts0 [freshElB]).1.map fun e => e.listeners.length) = [1] ∧
    (track (track_defaults locW) opts0 [styledEl, freshElB]).2.1 = [] :=
  ⟨by decide, by decide, by decide⟩

/-- Claim C3: when init_analytics runs and the _gat global is undefined,
an error is raised (a ReferenceError from evaluating the undeclared
global, since the guard on src line 79 compares the typeof string against
the undefined value and therefore never reaches the explicit throw), and
the state at the raise still has the original pageTracker and no new
tracker call recorded. -/
theorem init_analytics_gat_missing (a : String) (sc : JSVal) (loc : Location) (ref : String)
    (s : GAState) :
    init_analytics false a sc loc ref s =
      Except.error (JSError.refError "_gat is not defined",
        { s with debugCalls := s.debugCalls ++ ["Google Analytics loaded"] }) ∧
    ({ s with debugCalls := s.debugCalls ++ ["Google Analytics loaded"]} : GAState).pageTracker
      = s.pageTracker ∧
    ({ s with debugCalls := s.debugCalls ++ ["Google Analytics loaded"]} : GAState).actions
      = s.actions :=
  ⟨rfl, rfl, rfl⟩

/-- Claim C4: $.trackEvent with no initialized tracker handle performs no
recording call and only passes a diagnostic to the debug helper (the
function is total, so nothing is thrown); with a handle it forwards the
four fields verbatim to the event-recording call. -/
theorem trackEvent_soft_unavailability (category action label value : JSVal) :
    trackEvent none category action label value =
      ([], ["FATAL ERROR: pageTracker is not defined"]) ∧
    (trackEvent none category action label value).1 = [] ∧
    ∀ t : String, trackEvent (some t) category action label value =
      ([TrackAction.event category action label value], []) :=
  ⟨rfl, rfl, fun _ => rfl⟩

/-- Claim C5: with the tracking library loaded, init_analytics records a
plain pageview when the merged status_code is null or 200, and for every
other numeric status_code records exactly one error pageview whose virtual
path is the slash, the status code, ".html?page=", the pathname, the query
string, "&from=" and the referrer. -/
theorem init_analytics_pageview_dichotomy (a : String) (loc : Location) (ref : String)
    (s : GAState) :
    (∀ sc : JSVal, sc = JSVal.null ∨ sc = JSVal.num 200 →
      init_analytics true a sc loc ref s = Except.ok { s with
        pageTracker := some a,
        debugCalls := s.debugCalls ++ ["Google Analytics loaded"],
        actions := s.actions ++ [TrackAction.pageview none] }) ∧
    (∀ n : Int, n ≠ 200 →
      init_analytics true a (JSVal.num n) loc ref s = Except.ok { s with
        pageTracker := some a,
        debugCalls := s.debugCalls ++ ["Google Analytics loaded", "Tracking error " ++ toString n],
        actions := s.actions ++ [TrackAction.pageview (some ("/" ++ toString n ++ ".html?page=" ++
          loc.pathname ++ loc.search ++ "&from=" ++ ref))] }) := by
  constructor
  · rintro sc (rfl | rfl) <;> rfl
  · intro n hn
    have h2 : (n == 200) = false := by simpa using hn
    simp [init_analytics, looseNeq, looseEq, toNumber, typeof_gat, jsToString, h2]

/-- Witness for C5 at the specification example: status 404, path /foo,
query ?x=1, referrer https://ref.example; the recorded virtual path is
/404.html?page=/foo?x=1&from=https://ref.example. -/
theorem init_analytics_pageview_dichotomy_witness :
    ((404 : Int) ≠ 200) ∧
    init_analytics true "UA-0" (JSVal.num 404) locW "https://ref.example" gaState0 =
      Except.ok { gaState0 with
        pageTracker := some "UA-0",
        debugCalls := gaState0.debugCalls ++
          ["Google Analytics loaded", "Tracking error " ++ toString (404 : Int)],
        actions := gaState0.actions ++ [TrackAction.pageview (some ("/" ++ toString (404 : Int) ++
          ".html?page=" ++ locW.pathname ++ locW.search ++ "&from=" ++ "https://ref.example"))] } ∧
    "/" ++ toString (404 : Int) ++ ".html?page=" ++ locW.pathname ++ locW.search ++ "&from=" ++
      "https://ref.example" = "/404.html?page=/foo?x=1&from=https://ref.example" :=
  ⟨by decide,
   (init_analytics_pageview_dichotomy "UA-0" locW "https://ref.example" gaState0).2 404 (by decide),
   by decide⟩

/-- Claim C6: the listener attached by the each body captures the values
resolved at attach time; on firing, skip is skip_internal together with
the equality of the element host and the page host read at fire time; when
skipped no $.trackEvent invocation happens, otherwise exactly one
invocation with the captured tuple; either way at least one outcome
message goes to the debug helper and the listener returns true. -/
theorem listener_skip_internal_policy (dfl : TrackSettingsR) (opts : TrackOptions) (e : ElemState)
    (pt : Option String) (eh lh : String) :
    (trackOne dfl opts e).1.listeners = e.listeners ++ [attachedListener dfl opts e] ∧
    (attachedListener dfl opts e).category = (evaluate e.elem (extendTrack dfl opts).category).1 ∧
    (attachedListener dfl opts e).action = (evaluate e.elem (extendTrack dfl opts).action).1 ∧
    (attachedListener dfl opts e).label = (evaluate e.elem (extendTrack dfl opts).label).1 ∧
    (attachedListener dfl opts e).value = (evaluate e.elem (extendTrack dfl opts).value).1 ∧
    (attachedListener dfl opts e).skip_internal = (extendTrack dfl opts).skip_internal ∧
    fireListener pt eh lh (attachedListener dfl opts e) =
      (if (attachedListener dfl opts e).skip_internal && (eh == lh) then
        { calls := [], actions := [],
          dbg := ["Skipped " ++ (attachedListener dfl opts e).message], ret := true }
      else
        { calls := [((attachedListener dfl opts e).category, (attachedListener dfl opts e).action,
            (attachedListener dfl opts e).label, (attachedListener dfl opts e).value)],
          actions := (trackEvent pt (attachedListener dfl opts e).category
            (attachedListener dfl opts e).action (attachedListener dfl opts e).label
            (attachedListener dfl opts e).value).1,
          dbg := (trackEvent pt (attachedListener dfl opts e).category
            (attachedListener dfl opts e).action (attachedListener dfl opts e).label
            (attachedListener dfl opts e).value).2 ++
            ["Tracked " ++ (attachedListener dfl opts e).message],
          ret := true }) ∧
    (fireListener pt eh lh (attachedListener dfl opts e)).ret = true ∧
    1 ≤ (fireListener pt eh lh (attachedListener dfl opts e)).dbg.length := by
  refine ⟨rfl, rfl, rfl, rfl, rfl, rfl, ?_, ?_, ?_⟩
  · cases hsk : (attachedListener dfl opts e).skip_internal && (eh == lh) with
    | true => rw [fireListener_skip pt eh lh _ hsk]; simp
    | false => rw [fireListener_go pt eh lh _ hsk]; simp
  · cases hsk : (attachedListener dfl opts e).skip_internal && (eh == lh) with
    | true => rw [fireListener_skip pt eh lh _ hsk]
    | false => rw [fireListener_go pt eh lh _ hsk]
  · cases hsk : (attachedListener dfl opts e).skip_internal && (eh == lh) with
    | true => rw [fireListener_skip pt eh lh _ hsk]; simp
    | false => rw [fireListener_go pt eh lh _ hsk]; simp

/-- Claim C7: attaching tracking to an element invokes each callback-valued
setting exactly once, at attach time; firing the bound listener any number
of times invokes none of them again, because the listener reads only the
captured resolved values. The run trace of callback ids equals the
resolution trace of the merged settings, independently of the number of
fires. -/
theorem attach_time_evaluation (dfl : TrackSettingsR) (opts : TrackOptions) (e : ElemState)
    (pt : Option String) (lh : String) (n : Nat) :
    (attachAndFire dfl opts e pt lh n).1 = settingsFidTrace (extendTrack dfl opts) ∧
    (attachAndFire dfl opts e pt lh n).1 = (attachAndFire dfl opts e pt lh 0).1 ∧
    (attachAndFire dfl opts e pt lh n).2.length = n := by
  have hfst : ∀ m : Nat, (attachAndFire dfl opts e pt lh m).1 = (trackOne dfl opts e).2.2 := by
    intro m
    unfold attachAndFire
    cases h : (trackOne dfl opts e).1.listeners.getLast? <;> simp [h]
  have htr : (trackOne dfl opts e).2.2 = settingsFidTrace (extendTrack dfl opts) := by
    show (resolveSettings e.elem (extendTrack dfl opts)).2 = _
    simp [resolveSettings, settingsFidTrace, evaluate_trace]
  have hlast : (trackOne dfl opts e).1.listeners.getLast? = some (attachedListener dfl opts e) := by
    rw [trackOne_fst_listeners]
    exact List.getLast?_concat _
  refine ⟨(hfst n).trans htr, (hfst n).trans (hfst 0).symm, ?_⟩
  unfold attachAndFire
  simp [hlast]

/-- Witness for C7 exercising the hypotheses on a concrete input: a label
callback with id 7, merged over the defaults, fired 3 times; id 7 appears
exactly once in the trace. -/
theorem attach_time_evaluation_witness :
    (attachAndFire (track_defaults locW)
        { opts0 with label := some (TrackSetting.cb 7 fun el => JSVal.str el.href) }
        freshElB none "page.example" 3).1.count 7 = 1 ∧
    (attachAndFire (track_defaults locW)
        { opts0 with label := some (TrackSetting.cb 7 fun el => JSVal.str el.href) }
        freshElB none "page.example" 3).1 =
      settingsFidTrace (extendTrack (track_defaults locW)
        { opts0 with label := some (TrackSetting.cb 7 fun el => JSVal.str el.href) }) ∧
    (attachAndFire (track_defaults locW)
        { opts0 with label := some (TrackSetting.cb 7 fun el => JSVal.str el.href) }
        freshElB none "page.example" 3).2.length = 3 := by
  refine ⟨by decide, ?_, ?_⟩
  · exact (attach_time_evaluation (track_defaults locW)
      { opts0 with label := some (TrackSetting.cb 7 fun el => JSVal.str el.href) }
      freshElB none "page.example" 3).1
  · exact (attach_time_evaluation (track_defaults locW)
      { opts0 with label := some (TrackSetting.cb 7 fun el => JSVal.str el.href) }
      freshElB none "page.example" 3).2.2

/-- Claim C8 counterexample: an explicitly supplied onload of null still
defers loading to window load, although the merged onload is not true. -/
theorem trackPage_onload_null_defers :
    trackPage_settings { onload := some JSVal.null } =
      { onload := JSVal.null, status_code := JSVal.num 200 } ∧
    (trackPage_settings { onload := some JSVal.null }).onload ≠ JSVal.bool true ∧
    trackPage_loadPlan { onload := some JSVal.null } = LoadPlan.onWindowLoad := by
  decide

/-- Claim C8 as amended: after the merge over {onload: true,
status_code: 200}, loading is deferred to window load exactly when the
merged onload is loosely equal (JavaScript ==) to true or to null; an
absent onload, an explicit true and an explicit null all defer, while an
explicit false loads immediately. -/
theorem trackPage_onload_defer_loose (o : TrackPageOptions) :
    (trackPage_loadPlan o = LoadPlan.onWindowLoad ↔
      (looseEq (trackPage_settings o).onload (JSVal.bool true) = true ∨
       looseEq (trackPage_settings o).onload JSVal.null = true)) ∧
    trackPage_loadPlan { o with onload := none } = LoadPlan.onWindowLoad ∧
    trackPage_loadPlan { o with onload := some (JSVal.bool true) } = LoadPlan.onWindowLoad ∧
    trackPage_loadPlan { o with onload := some JSVal.null } = LoadPlan.onWindowLoad ∧
    trackPage_loadPlan { o with onload := some (JSVal.bool false) } = LoadPlan.immediate := by
  refine ⟨?_, rfl, rfl, rfl, rfl⟩
  cases h1 : looseEq (trackPage_settings o).onload (JSVal.bool true) <;>
    cases h2 : looseEq (trackPage_settings o).onload JSVal.null <;>
      simp [trackPage_loadPlan, h1, h2]

/-- Claim C9: an element that carries the class tracked before $.fn.track
first touches it is treated as already marked; it is never modified at
all, so it never receives a tracking listener. -/
theorem pre_tracked_class_suppresses_tracking (dfl : TrackSettingsR) (optss : List TrackOptions)
    (es : List ElemState) :
    List.Forall₂ (fun e e2 => "tracked" ∈ e.classes → e2 = e ∧ e2.listeners = e.listeners)
      es (trackSeq dfl optss es) :=
  List.Forall₂.imp (fun _ _ hab ht => ⟨hab.1 ht, by rw [hab.1 ht]⟩) (trackSeq_Step dfl optss es)

/-- Witness for C9 at a concrete input: an element styled with the class
tracked and no listeners stays exactly as it is. -/
theorem pre_tracked_class_suppresses_tracking_witness :
    ("tracked" ∈ styledEl.classes ∧ styledEl.listeners = []) ∧
    List.Forall₂ (fun e e2 => "tracked" ∈ e.classes → e2 = e ∧ e2.listeners = e.listeners)
      [styledEl] (trackSeq (track_defaults locW) [opts0] [styledEl]) ∧
    trackSeq (track_defaults locW) [opts0] [styledEl] = [styledEl] :=
  ⟨by decide, pre_tracked_class_suppresses_tracking (track_defaults locW) [opts0] [styledEl],
   by decide⟩

/-- Claim C10: the per-invocation debug option is inert. Two $.fn.track
runs whose options differ only in the debug field produce identical
results (in particular identical messages to the debug helper), and the
console output is gated solely by the debug flag of the global defaults
object: when that flag is false, passing debug options does not enable
logging. -/
theorem track_options_debug_inert (dfl : TrackSettingsR) (opts : TrackOptions)
    (d1 d2 : Option Bool) (es : List ElemState) (consoleAvail : Bool) :
    track dfl { opts with debug := d1 } es = track dfl { opts with debug := d2 } es ∧
    debugWrites consoleAvail dfl.debug (track dfl { opts with debug := d1 } es).2.1 =
      debugWrites consoleAvail dfl.debug (track dfl { opts with debug := d2 } es).2.1 ∧
    (dfl.debug = false →
      debugWrites consoleAvail dfl.debug (track dfl { opts with debug := some true } es).2.1
        = []) := by
  refine ⟨?_, ?_, ?_⟩
  · rw [track_debug_irrel dfl opts d1 es, track_debug_irrel dfl opts d2 es]
  · rw [track_debug_irrel dfl opts d1 es, track_debug_irrel dfl opts d2 es]
  · intro h
    simp [debugWrites, h]

/-- Witness for C10 at a concrete input: the stock defaults have debug
false, and a run with debug true in the options writes nothing to the
console. -/
theorem track_options_debug_inert_witness :
    (track_defaults locW).debug = false ∧
    debugWrites true (track_defaults locW).debug
      (track (track_defaults locW) { opts0 with debug := some true } [freshElB]).2.1 = [] :=
  ⟨rfl, (track_options_debug_inert (track_defaults locW) opts0 (some true) (some false)
    [freshElB] true).2.2 rfl⟩

end JGA
